import Mathlib

/-!
Shallow embedding of the AtomicWatcherAquarium (AWA) supervisor, src/main.py.

The program discovers watcher modules from a directory, binds each to its
configuration section, starts one asyncio task per module, sends a startup
notification, waits on all tasks with asyncio.gather, and in a finally block
cancels the remaining tasks, awaits them with return_exceptions=True, and
closes the notifier.

The embedding models the event-loop run of main() as a total function from an
environment (configuration state, candidate watcher files with their load /
init / run behaviour, delivery-failure and interrupt flags) to a run result:
an ordered event trace, an optional process exit status (none when the run
blocks forever), the final task states, and the (module, config) pairs passed
to each init call.
-/

namespace AWA

/-- Stand-in for an arbitrary YAML mapping handed to a watcher or the
notifier; the core never inspects it, only passes it through. -/
abbrev Cfg := List (String × String)

/-- What a started watcher task does during the run: returns normally,
raises an unhandled error, or keeps running until cancelled. -/
inductive RunOutcome where
  | completes
  | fails
  | runsForever
deriving DecidableEq, Repr

/-- Outcome of invoking a module's `init(notifier, config)`:
the call raises, returns a falsy value (no coroutine), or returns a
coroutine whose subsequent behaviour is `r`. -/
inductive InitOutcome where
  | raises
  | noCoro
  | coro (r : RunOutcome)
deriving DecidableEq, Repr

/-- A candidate file `<name>.py` in the watchers directory: whether the
module imports successfully, whether it has an `init` attribute, and what
its `init` does when invoked. -/
structure Candidate where
  name : String
  loads : Bool
  hasInit : Bool
  init : InitOutcome
deriving DecidableEq, Repr

/-- Task states; `running` is non-terminal, the rest are terminal. -/
inductive TaskState where
  | running
  | completed
  | failed
  | cancelled
deriving DecidableEq, Repr

/-- A started asyncio task: owning module name, the asyncio task name
`watcher_<module>`, and its run behaviour. -/
structure WatcherTask where
  moduleName : String
  taskName : String
  run : RunOutcome
deriving DecidableEq, Repr

/-- Observable events of a run of main(), in order. -/
inductive Ev where
  | configErrorLogged
  | fatalLogged
  | watchersDirMissingLogged
  | discoveredLogged (moduleName : String)
  | loadFailedLogged (moduleName : String)
  | noInitLogged (moduleName : String)
  | noWatchersLogged
  | noTasksLogged
  | startedLogged (moduleName : String)
  | startFailedLogged (moduleName : String)
  | sendCalled (text : String)
  | sendFailureLogged
  | waitBegun
  | waitEnded
  | cancelIssued (taskName : String)
  | awaitedAll
  | taskTerminal (moduleName : String) (s : TaskState)
  | closeCalled
  | allStoppedLogged
  | interruptLogged
deriving DecidableEq, Repr

/-- Embeds `file.name.startswith("_")` (src/main.py:62): whether the first
character of the name is an underscore. -/
def startsWithUnderscore (s : String) : Bool :=
  match s.data with
  | [] => false
  | c :: _ => c == '_'

/-- Result of `discover_watchers` (src/main.py:52-76): the loaded modules
in scan order together with the log events emitted during the scan. -/
structure DiscoverResult where
  modules : List Candidate
  events : List Ev
deriving DecidableEq, Repr

/-- The scan loop of `discover_watchers` (src/main.py:61-74): a name
starting with an underscore is skipped without a log; a candidate that
fails to import is logged as an error and skipped; a module without an
`init` attribute is logged as a warning and skipped; a module with `init`
is appended and logged as discovered. One candidate's failure never stops
the scan of the rest. -/
def discoverScan : List Candidate → DiscoverResult
  | [] => ⟨[], []⟩
  | c :: rest =>
      let tail := discoverScan rest
      if startsWithUnderscore c.name then tail
      else if c.loads then
        if c.hasInit then
          ⟨c :: tail.modules, Ev.discoveredLogged c.name :: tail.events⟩
        else ⟨tail.modules, Ev.noInitLogged c.name :: tail.events⟩
      else ⟨tail.modules, Ev.loadFailedLogged c.name :: tail.events⟩

/-- Embeds `discover_watchers` (src/main.py:52-76) with its log events: a
missing watchers directory is logged as an error and yields no modules
(src/main.py:57-59); otherwise the directory is scanned candidate by
candidate. -/
def discover_watchersRun (dirExists : Bool) (cs : List Candidate) : DiscoverResult :=
  if dirExists then discoverScan cs
  else ⟨[], [Ev.watchersDirMissingLogged]⟩

/-- The modules returned by `discover_watchers` (src/main.py:52-76): the
candidates, in scan order, whose name does not start with an underscore,
whose import succeeds, and which expose `init`. -/
def discover_watchers (dirExists : Bool) (cs : List Candidate) : List Candidate :=
  (discover_watchersRun dirExists cs).modules

/-- Embeds `watchers_config.get(module_name, dict())` (src/main.py:121): the watcher's
own section of the `watchers` config mapping, or an empty mapping. -/
def bindConfig (wcfg : List (String × Cfg)) (name : String) : Cfg :=
  match wcfg.lookup name with
  | some c => c
  | none => []

/-- Result of the start loop (src/main.py:114-130): the tasks created, the
events logged, and the (module name, config) pair passed to each `init`
invocation. -/
structure StartPhase where
  tasks : List WatcherTask
  events : List Ev
  invocations : List (String × Cfg)
deriving DecidableEq, Repr

/-- The start loop (src/main.py:114-130): for each discovered module in
order, bind its config section and invoke `init(notifier, watcher_config)`.
If the call raises, log and continue with the rest; if it returns a falsy
value, silently skip; otherwise create a task named `watcher_<module>` and
log the start. -/
def startTasks (mods : List Candidate) (wcfg : List (String × Cfg)) : StartPhase :=
  match mods with
  | [] => ⟨[], [], []⟩
  | m :: rest =>
    let cfg := bindConfig wcfg m.name
    let tail := startTasks rest wcfg
    match m.init with
    | InitOutcome.raises =>
        ⟨tail.tasks, Ev.startFailedLogged m.name :: tail.events,
         (m.name, cfg) :: tail.invocations⟩
    | InitOutcome.noCoro =>
        ⟨tail.tasks, tail.events, (m.name, cfg) :: tail.invocations⟩
    | InitOutcome.coro r =>
        ⟨⟨m.name, ("watcher_") ++ m.name, r⟩ :: tail.tasks,
         Ev.startedLogged m.name :: tail.events,
         (m.name, cfg) :: tail.invocations⟩

/-- Left-to-right scan of Python's `str.replace` over character lists: at
each position, if the pattern starts here, emit the replacement and skip the
pattern's length, else emit the character and advance by one. The fuel is an
upper bound on the scan steps; each step consumes at least one character of a
nonempty input, so fuel equal to the input length suffices. -/
def replaceCharsAux (pat repl : List Char) : Nat → List Char → List Char
  | _, [] => []
  | 0, s => s
  | Nat.succ fuel, c :: cs =>
      if pat.isPrefixOf (c :: cs) then
        repl ++ replaceCharsAux pat repl fuel (List.drop pat.length (c :: cs))
      else c :: replaceCharsAux pat repl fuel cs

/-- Python's `str.replace(pat, repl)` for a nonempty pattern: replace all
non-overlapping occurrences, scanning left to right. -/
def pyReplace (s pat repl : String) : String :=
  String.mk (replaceCharsAux pat.data repl.data s.data.length s.data)

/-- Embeds `t.get_name().replace("watcher_", "")` (src/main.py:140). -/
def stripWatcherTag (s : String) : String :=
  pyReplace s ("watcher_") ("")

/-- Embeds `active_watchers` (src/main.py:140). -/
def activeWatchers (tasks : List WatcherTask) : List String :=
  tasks.map (fun t => stripWatcherTag t.taskName)

/-- The fixed heading of the startup notification (src/main.py:141-147). -/
def startupHeader : String :=
  "# 🚀 AtomicWatcherAquarium Started!\n\nSystem initialized successfully!\n\n## Active Watchers\n\n"

/-- The startup notification text (src/main.py:141-147). -/
def startupMarkdown (tasks : List WatcherTask) : String :=
  startupHeader
    ++ String.intercalate ("\n")
        ((activeWatchers tasks).map (fun n => ("- `") ++ n ++ ("`")))

/-- Modelled from the spec: `Notifier.send` (notifier.py is a file of this
repository but is not under src/). Per the spec's notifier contract, `send`
is best-effort delivery whose failure "must not raise past the caller in a
way that aborts the Supervisor run" and no failure is silent: a delivery
failure is logged inside the notifier and `send` returns normally. -/
def notifierSendEvents (deliveryFails : Bool) (text : String) : List Ev :=
  Ev.sendCalled text :: (if deliveryFails then [Ev.sendFailureLogged] else [])

/-- How `await asyncio.gather(*tasks)` (src/main.py:154, without
`return_exceptions`) ends: an external interrupt cancels the wait; else the
first unhandled task error makes gather raise it; else gather returns once
every task has completed; else the wait blocks forever. -/
inductive WaitResult where
  | interrupted
  | errorRaised (moduleName : String)
  | allCompleted
  | blocksForever
deriving DecidableEq, Repr

/-- Outcome of the wait phase for a task set and interrupt flag. -/
def waitOutcome (tasks : List WatcherTask) (interrupt : Bool) : WaitResult :=
  if interrupt then WaitResult.interrupted
  else
    match tasks.find? (fun t => t.run == RunOutcome.fails) with
    | some t => WaitResult.errorRaised t.moduleName
    | none =>
        if tasks.all (fun t => t.run == RunOutcome.completes) then
          WaitResult.allCompleted
        else WaitResult.blocksForever

/-- Terminal states reached during the wait itself: tasks that complete
return normally, tasks that fail end with their exception. -/
def terminalsDuringWait (tasks : List WatcherTask) : List Ev :=
  tasks.filterMap (fun t =>
    match t.run with
    | RunOutcome.completes => some (Ev.taskTerminal t.moduleName TaskState.completed)
    | RunOutcome.fails => some (Ev.taskTerminal t.moduleName TaskState.failed)
    | RunOutcome.runsForever => none)

/-- The finally block (src/main.py:157-167): cancel every task not yet done,
await them all with `return_exceptions=True` (each still-running task ends
Cancelled), then `await notifier.close()`. -/
def shutdownEvents (tasks : List WatcherTask) : List Ev :=
  (tasks.filterMap (fun t =>
      if t.run == RunOutcome.runsForever then some (Ev.cancelIssued t.taskName) else none))
    ++ [Ev.awaitedAll]
    ++ (tasks.filterMap (fun t =>
        if t.run == RunOutcome.runsForever then
          some (Ev.taskTerminal t.moduleName TaskState.cancelled)
        else none))
    ++ [Ev.closeCalled]

/-- The terminal state each task has after the finally block completes. -/
def finalState : RunOutcome → TaskState
  | RunOutcome.completes => TaskState.completed
  | RunOutcome.fails => TaskState.failed
  | RunOutcome.runsForever => TaskState.cancelled

/-- Result of the supervision phase (notify + wait + finally). -/
structure SupResult where
  events : List Ev
  exit : Option Nat
  finalStates : List (String × TaskState)
deriving DecidableEq, Repr

/-- Trace events and process outcome after the wait ends, per how it ended:
gather returning normally falls through the finally and main returns (exit
0); an external interrupt re-raises KeyboardInterrupt after the finally,
logged at top level (exit 0); a task's exception propagates after the
finally to the top-level handler, logged as fatal (exit 1). -/
def supTail : WaitResult → (List Ev × Option Nat)
  | WaitResult.allCompleted => ([Ev.allStoppedLogged], some 0)
  | WaitResult.interrupted => ([Ev.allStoppedLogged, Ev.interruptLogged], some 0)
  | WaitResult.errorRaised _ => ([Ev.allStoppedLogged, Ev.fatalLogged], some 1)
  | WaitResult.blocksForever => ([], none)

/-- Task states observed when the wait is still blocking: completed tasks
have returned, the rest are still running (no task has failed, else the
wait would have ended). -/
def blockStates (tasks : List WatcherTask) : List (String × TaskState) :=
  tasks.map (fun t =>
    (t.moduleName,
     if t.run == RunOutcome.completes then TaskState.completed else TaskState.running))

/-- The supervision phase (src/main.py:139-169): build and send the startup
notification, enter the gather wait, and when the wait ends run the finally
block (cancel-all, await-all with suppression, close the notifier) followed
by the outcome-specific tail. When the wait never ends, the trace stops at
the wait. -/
def supervise (tasks : List WatcherTask) (deliveryFails : Bool) (interrupt : Bool) :
    SupResult :=
  let sendEvs := notifierSendEvents deliveryFails (startupMarkdown tasks)
  match waitOutcome tasks interrupt with
  | WaitResult.blocksForever =>
      ⟨sendEvs ++ [Ev.waitBegun] ++ terminalsDuringWait tasks, none, blockStates tasks⟩
  | w =>
      ⟨sendEvs ++ [Ev.waitBegun] ++ terminalsDuringWait tasks ++ [Ev.waitEnded]
         ++ shutdownEvents tasks ++ (supTail w).fst,
       (supTail w).snd,
       tasks.map (fun t => (t.moduleName, finalState t.run))⟩

/-- The loaded configuration document when it is a YAML mapping: its two
optional top-level sections. -/
structure ConfigDoc where
  notifier : Option Cfg
  watchers : Option (List (String × Cfg))
deriving DecidableEq, Repr

/-- Environment of one run of main(): whether config.yaml exists and parses,
the loaded document (`none` models a null/empty YAML document), whether the
watchers directory exists, the candidate files in scan order, whether
startup-notification delivery fails, and whether an external interrupt
arrives during the wait. -/
structure Env where
  configExists : Bool
  configLoads : Bool
  configDoc : Option ConfigDoc
  watchersDirExists : Bool
  candidates : List Candidate
  sendDeliveryFails : Bool
  interrupt : Bool
deriving DecidableEq, Repr

/-- Result of a whole run of main() under the top-level handler of
src/main.py:185-191: event trace, process exit status (`none` when the run
blocks forever), final task states, the config passed to the Notifier
constructor (when reached), and the (module, config) pairs passed to init
calls. -/
structure RunResult where
  events : List Ev
  exit : Option Nat
  finalStates : List (String × TaskState)
  notifierCfgUsed : Option Cfg
  invocations : List (String × Cfg)
deriving DecidableEq, Repr

/-- Embeds `main` (src/main.py:79-169) under the top-level handler
(src/main.py:185-191). Missing config.yaml or a parse failure exits 1. A
null document makes `config.get("notifier", {})` raise AttributeError,
caught at top level as a fatal error (exit 1). Missing sections are
replaced by empty mappings. Zero discovered modules or zero started tasks
log and return (exit 0). Otherwise the supervision phase runs. -/
def mainRun (e : Env) : RunResult :=
  if !e.configExists then ⟨[Ev.configErrorLogged], some 1, [], none, []⟩
  else if !e.configLoads then ⟨[Ev.configErrorLogged], some 1, [], none, []⟩
  else
    match e.configDoc with
    | none => ⟨[Ev.fatalLogged], some 1, [], none, []⟩
    | some cfg =>
      let ncfg := cfg.notifier.getD []
      let mods := discover_watchers e.watchersDirExists e.candidates
      if mods.isEmpty then
        ⟨[Ev.noWatchersLogged], some 0, [], some ncfg, []⟩
      else
        let wcfg := cfg.watchers.getD []
        let sp := startTasks mods wcfg
        if sp.tasks.isEmpty then
          ⟨sp.events ++ [Ev.noTasksLogged], some 0, [], some ncfg, sp.invocations⟩
        else
          let s := supervise sp.tasks e.sendDeliveryFails e.interrupt
          ⟨sp.events ++ s.events, s.exit, s.finalStates, some ncfg, sp.invocations⟩

/-- Whether an event records a task reaching a terminal state. -/
def isTerminalEv : Ev → Bool
  | Ev.taskTerminal _ _ => true
  | _ => false

/-- The same configuration document with missing sections replaced by
explicit empty mappings. -/
def fillDoc (m : ConfigDoc) : ConfigDoc :=
  ⟨some (m.notifier.getD []), some (m.watchers.getD [])⟩

/-- The modules discovered in a run. -/
def discovered (e : Env) : List Candidate :=
  discover_watchers e.watchersDirExists e.candidates

/-- The start phase of a run, given the loaded configuration document. -/
def startPhase (e : Env) (cfg : ConfigDoc) : StartPhase :=
  startTasks (discovered e) (cfg.watchers.getD [])

/-- The supervision phase of a run, given the loaded configuration document. -/
def supPhase (e : Env) (cfg : ConfigDoc) : SupResult :=
  supervise (startPhase e cfg).tasks e.sendDeliveryFails e.interrupt

/-! ### Concrete runs used as test inputs -/

/-- A watcher unit whose task raises an unhandled error while running. -/
def unitFails : Candidate := ⟨"alpha", true, true, InitOutcome.coro RunOutcome.fails⟩

/-- A watcher unit whose task runs until cancelled. -/
def unitForever : Candidate := ⟨"beta", true, true, InitOutcome.coro RunOutcome.runsForever⟩

/-- A watcher unit whose `init` returns a falsy value (nothing to run). -/
def unitNoCoro : Candidate := ⟨"gamma", true, true, InitOutcome.noCoro⟩

/-- A watcher unit whose file name itself contains the `watcher_` tag. -/
def unitTagged : Candidate := ⟨"watcher_x", true, true, InitOutcome.coro RunOutcome.runsForever⟩

/-- A configuration document with neither top-level section. -/
def emptyDoc : ConfigDoc := ⟨none, none⟩

/-- A configuration document with a `watchers` section for unit `beta`. -/
def docWithSections : ConfigDoc := ⟨none, some [("beta", [("key", "value")])]⟩

/-- Run with one failing task and one long-running sibling, no interrupt. -/
def envC1run : Env := ⟨true, true, some emptyDoc, true, [unitFails, unitForever], false, false⟩

/-- Run in which discovery yields no watcher units. -/
def envEmptyRun : Env := ⟨true, true, some emptyDoc, true, [], false, false⟩

/-- Run in which the only unit's `init` returns nothing to run. -/
def envNoCoroRun : Env := ⟨true, true, some emptyDoc, true, [unitNoCoro], false, false⟩

/-- Run with a unit whose name contains the `watcher_` tag. -/
def envTaggedRun : Env := ⟨true, true, some emptyDoc, true, [unitTagged], false, true⟩

/-- Run whose configuration file loads as a null (empty) YAML document. -/
def envNullDoc : Env := ⟨true, true, none, true, [unitForever], false, false⟩

/-- Run with one long-running task, ended by an external interrupt. -/
def envForeverRun : Env := ⟨true, true, some emptyDoc, true, [unitForever], false, true⟩

/-- Same run with startup-notification delivery failing. -/
def envSendFailRun : Env := ⟨true, true, some emptyDoc, true, [unitForever], true, true⟩

/-- Run with an explicit `watchers` section, ended by an external interrupt. -/
def envDocRun : Env := ⟨true, true, some docWithSections, true, [unitForever], false, true⟩

/-- Candidate set for the start-count property: one loadable unit with
`init` returning nothing to run. -/
def csC6 : List Candidate := [unitNoCoro]

/-- A candidate whose import fails. -/
def unitBroken : Candidate := ⟨"delta", false, true, InitOutcome.coro RunOutcome.runsForever⟩

/-- A candidate whose `init` invocation raises. -/
def unitRaises : Candidate := ⟨"epsilon", true, true, InitOutcome.raises⟩

/-- A scan with one load failure, one start failure and one running unit. -/
def csC6w : List Candidate := [unitBroken, unitRaises, unitForever]

/-- A task set with one failing task and one long-running sibling. -/
def tsC1 : List WatcherTask :=
  [⟨"alpha", "watcher_alpha", RunOutcome.fails⟩,
   ⟨"beta", "watcher_beta", RunOutcome.runsForever⟩]

/-! ### Structural lemmas about the start phase -/

theorem startTasks_append (xs ys : List Candidate) (wcfg : List (String × Cfg)) :
    startTasks (xs ++ ys) wcfg =
      ⟨(startTasks xs wcfg).tasks ++ (startTasks ys wcfg).tasks,
       (startTasks xs wcfg).events ++ (startTasks ys wcfg).events,
       (startTasks xs wcfg).invocations ++ (startTasks ys wcfg).invocations⟩ := by
  induction xs with
  | nil => simp [startTasks]
  | cons m rest ih =>
      cases h : m.init <;> simp [startTasks, h, ih]

theorem startTasks_invocations (mods : List Candidate) (wcfg : List (String × Cfg)) :
    (startTasks mods wcfg).invocations =
      mods.map (fun m => (m.name, bindConfig wcfg m.name)) := by
  induction mods with
  | nil => rfl
  | cons m rest ih =>
      cases h : m.init <;> simp [startTasks, h, ih]

theorem startTasks_count (mods : List Candidate) (wcfg : List (String × Cfg)) :
    (startTasks mods wcfg).tasks.length
        + mods.countP (fun m => m.init == InitOutcome.raises)
        + mods.countP (fun m => m.init == InitOutcome.noCoro)
      = mods.length := by
  induction mods with
  | nil => rfl
  | cons m rest ih =>
      cases h : m.init <;>
        simp [startTasks, h, List.countP_cons] <;> omega

theorem startTasks_events_shape (mods : List Candidate) (wcfg : List (String × Cfg)) :
    ∀ ev ∈ (startTasks mods wcfg).events,
      (∃ n, ev = Ev.startedLogged n) ∨ (∃ n, ev = Ev.startFailedLogged n) := by
  induction mods with
  | nil => intro ev hev; simp [startTasks] at hev
  | cons m rest ih =>
      intro ev hev
      cases h : m.init <;> simp [startTasks, h] at hev
      case raises =>
        cases hev with
        | inl he => exact Or.inr ⟨m.name, he⟩
        | inr he => exact ih ev he
      case noCoro => exact ih ev hev
      case coro r =>
        cases hev with
        | inl he => exact Or.inl ⟨m.name, he⟩
        | inr he => exact ih ev he

theorem startTasks_no_started_of_tasks_nil (mods : List Candidate)
    (wcfg : List (String × Cfg)) (h : (startTasks mods wcfg).tasks = []) :
    ∀ n, Ev.startedLogged n ∉ (startTasks mods wcfg).events := by
  induction mods with
  | nil => intro n hn; simp [startTasks] at hn
  | cons m rest ih =>
      intro n hn
      cases hi : m.init <;> simp [startTasks, hi] at h hn
      case raises => exact ih h n hn
      case noCoro => exact ih h n hn

/-! ### Structural lemmas about discovery -/

theorem discoverScan_append (xs ys : List Candidate) :
    discoverScan (xs ++ ys) =
      ⟨(discoverScan xs).modules ++ (discoverScan ys).modules,
       (discoverScan xs).events ++ (discoverScan ys).events⟩ := by
  induction xs with
  | nil => simp [discoverScan]
  | cons c rest ih =>
      by_cases hu : startsWithUnderscore c.name <;>
        cases hl : c.loads <;> cases hi : c.hasInit <;>
          simp [discoverScan, hu, hl, hi, ih]

theorem discoverScan_modules_eq_filter (cs : List Candidate) :
    (discoverScan cs).modules =
      cs.filter (fun c => !(startsWithUnderscore c.name) && c.loads && c.hasInit) := by
  induction cs with
  | nil => rfl
  | cons c rest ih =>
      by_cases hu : startsWithUnderscore c.name <;>
        cases hl : c.loads <;> cases hi : c.hasInit <;>
          simp [discoverScan, List.filter_cons, hu, hl, hi, ih]

theorem discover_watchers_eq_filter (d : Bool) (cs : List Candidate) :
    discover_watchers d cs =
      if d then
        cs.filter (fun c => !(startsWithUnderscore c.name) && c.loads && c.hasInit)
      else [] := by
  cases d
  · rfl
  · unfold discover_watchers discover_watchersRun
    simp [discoverScan_modules_eq_filter]

theorem discoverScan_loadFailed_mem (cs : List Candidate) (c : Candidate)
    (hc : c ∈ cs) (hu : startsWithUnderscore c.name = false)
    (hl : c.loads = false) :
    Ev.loadFailedLogged c.name ∈ (discoverScan cs).events := by
  induction cs with
  | nil => cases hc
  | cons d rest ih =>
      rcases List.mem_cons.mp hc with rfl | hc
      · simp [discoverScan, hu, hl]
      · by_cases hu2 : startsWithUnderscore d.name <;>
          cases hl2 : d.loads <;> cases hi2 : d.hasInit <;>
            simp [discoverScan, hu2, hl2, hi2, ih hc]

theorem discoverScan_noInit_mem (cs : List Candidate) (c : Candidate)
    (hc : c ∈ cs) (hu : startsWithUnderscore c.name = false)
    (hl : c.loads = true) (hi : c.hasInit = false) :
    Ev.noInitLogged c.name ∈ (discoverScan cs).events := by
  induction cs with
  | nil => cases hc
  | cons d rest ih =>
      rcases List.mem_cons.mp hc with rfl | hc
      · simp [discoverScan, hu, hl, hi]
      · by_cases hu2 : startsWithUnderscore d.name <;>
          cases hl2 : d.loads <;> cases hi2 : d.hasInit <;>
            simp [discoverScan, hu2, hl2, hi2, ih hc]

theorem startTasks_tasks_filterMap (mods : List Candidate)
    (wcfg : List (String × Cfg)) :
    (startTasks mods wcfg).tasks =
      mods.filterMap (fun m =>
        match m.init with
        | InitOutcome.coro r => some ⟨m.name, ("watcher_") ++ m.name, r⟩
        | _ => none) := by
  induction mods with
  | nil => rfl
  | cons m rest ih =>
      cases h : m.init <;> simp [startTasks, List.filterMap_cons, h, ih]

theorem startTasks_raises_logged (mods : List Candidate)
    (wcfg : List (String × Cfg)) (m : Candidate)
    (hm : m ∈ mods) (hr : m.init = InitOutcome.raises) :
    Ev.startFailedLogged m.name ∈ (startTasks mods wcfg).events := by
  induction mods with
  | nil => cases hm
  | cons d rest ih =>
      rcases List.mem_cons.mp hm with rfl | hm
      · simp [startTasks, hr]
      · cases h : d.init <;> simp [startTasks, h, ih hm]

/-! ### Structural lemmas about the wait and shutdown phases -/

theorem terminalsDuringWait_shape (ts : List WatcherTask) :
    ∀ ev ∈ terminalsDuringWait ts, isTerminalEv ev = true := by
  intro ev hev
  rcases List.mem_filterMap.mp hev with ⟨t, _, hf⟩
  cases h : t.run <;> rw [h] at hf <;> simp at hf <;> simp [← hf, isTerminalEv]

theorem terminalsDuringWait_length (ts : List WatcherTask) :
    (terminalsDuringWait ts).length =
      ts.countP (fun t => t.run == RunOutcome.completes)
        + ts.countP (fun t => t.run == RunOutcome.fails) := by
  induction ts with
  | nil => rfl
  | cons t rest ih =>
      cases h : t.run <;>
        simp [terminalsDuringWait, h, List.countP_cons] at ih ⊢ <;> omega

theorem cancelIssuedEvs_shape (ts : List WatcherTask) :
    ∀ ev ∈ ts.filterMap (fun t =>
        if t.run == RunOutcome.runsForever then some (Ev.cancelIssued t.taskName) else none),
      ∃ n, ev = Ev.cancelIssued n := by
  intro ev hev
  rcases List.mem_filterMap.mp hev with ⟨t, _, hf⟩
  by_cases h : t.run == RunOutcome.runsForever <;> simp [h] at hf
  exact ⟨t.taskName, hf.symm⟩

theorem cancelTerminalEvs_shape (ts : List WatcherTask) :
    ∀ ev ∈ ts.filterMap (fun t =>
        if t.run == RunOutcome.runsForever then
          some (Ev.taskTerminal t.moduleName TaskState.cancelled)
        else none),
      ∃ n, ev = Ev.taskTerminal n TaskState.cancelled := by
  intro ev hev
  rcases List.mem_filterMap.mp hev with ⟨t, _, hf⟩
  by_cases h : t.run == RunOutcome.runsForever <;> simp [h] at hf
  exact ⟨t.moduleName, hf.symm⟩

theorem cancelTerminalEvs_length (ts : List WatcherTask) :
    (ts.filterMap (fun t =>
        if t.run == RunOutcome.runsForever then
          some (Ev.taskTerminal t.moduleName TaskState.cancelled)
        else none)).length
      = ts.countP (fun t => t.run == RunOutcome.runsForever) := by
  induction ts with
  | nil => rfl
  | cons t rest ih =>
      cases h : t.run <;>
        simp only [List.filterMap_cons, h, List.countP_cons] <;>
        simp at ih ⊢ <;> omega

theorem run_partition (ts : List WatcherTask) :
    ts.countP (fun t => t.run == RunOutcome.completes)
        + ts.countP (fun t => t.run == RunOutcome.fails)
        + ts.countP (fun t => t.run == RunOutcome.runsForever)
      = ts.length := by
  induction ts with
  | nil => rfl
  | cons t rest ih =>
      cases h : t.run <;> simp [List.countP_cons, h] <;> omega

theorem supervise_terminating (ts : List WatcherTask) (df itr : Bool)
    (w : WaitResult) (hw : waitOutcome ts itr = w)
    (hb : w ≠ WaitResult.blocksForever) :
    supervise ts df itr =
      ⟨notifierSendEvents df (startupMarkdown ts) ++ [Ev.waitBegun]
         ++ terminalsDuringWait ts ++ [Ev.waitEnded] ++ shutdownEvents ts
         ++ (supTail w).fst,
       (supTail w).snd,
       ts.map (fun t => (t.moduleName, finalState t.run))⟩ := by
  unfold supervise
  rw [hw]
  cases w with
  | blocksForever => exact absurd rfl hb
  | interrupted => rfl
  | errorRaised n => rfl
  | allCompleted => rfl

theorem supervise_blocking (ts : List WatcherTask) (df itr : Bool)
    (hw : waitOutcome ts itr = WaitResult.blocksForever) :
    supervise ts df itr =
      ⟨notifierSendEvents df (startupMarkdown ts) ++ [Ev.waitBegun]
         ++ terminalsDuringWait ts,
       none, blockStates ts⟩ := by
  unfold supervise
  rw [hw]

theorem supervise_exit_of_isSome (ts : List WatcherTask) (df itr : Bool)
    (h : (supervise ts df itr).exit.isSome = true) :
    waitOutcome ts itr ≠ WaitResult.blocksForever := by
  intro hw
  rw [supervise_blocking ts df itr hw] at h
  simp at h

/-! ### Path lemmas for mainRun -/

theorem mainRun_noWatchers (e : Env) (cfg : ConfigDoc)
    (h1 : e.configExists = true) (h2 : e.configLoads = true)
    (h3 : e.configDoc = some cfg) (hm : discovered e = []) :
    mainRun e = ⟨[Ev.noWatchersLogged], some 0, [], some (cfg.notifier.getD []), []⟩ := by
  unfold mainRun
  rw [h1, h2, h3]
  simp [discovered] at hm
  simp [hm]

theorem mainRun_noTasks (e : Env) (cfg : ConfigDoc)
    (h1 : e.configExists = true) (h2 : e.configLoads = true)
    (h3 : e.configDoc = some cfg) (hm : discovered e ≠ [])
    (ht : (startPhase e cfg).tasks = []) :
    mainRun e =
      ⟨(startPhase e cfg).events ++ [Ev.noTasksLogged], some 0, [],
       some (cfg.notifier.getD []), (startPhase e cfg).invocations⟩ := by
  unfold mainRun
  rw [h1, h2, h3]
  simp only [discovered] at hm
  simp only [startPhase, discovered] at ht
  simp [hm, ht, startPhase, discovered]

theorem mainRun_sup (e : Env) (cfg : ConfigDoc)
    (h1 : e.configExists = true) (h2 : e.configLoads = true)
    (h3 : e.configDoc = some cfg)
    (ht : (startPhase e cfg).tasks ≠ []) :
    mainRun e =
      ⟨(startPhase e cfg).events ++ (supPhase e cfg).events,
       (supPhase e cfg).exit, (supPhase e cfg).finalStates,
       some (cfg.notifier.getD []), (startPhase e cfg).invocations⟩ := by
  have hm : discovered e ≠ [] := by
    intro hd
    apply ht
    simp [startPhase, hd, startTasks]
  unfold mainRun
  rw [h1, h2, h3]
  simp only [startPhase, discovered] at ht
  simp only [discovered] at hm
  simp [supPhase, startPhase, discovered, hm, ht]

/-! ### Auxiliary counting and membership lemmas -/

theorem countP_zero_of_shape {l : List Ev} {p : Ev → Bool}
    (h : ∀ ev ∈ l, p ev = false) : l.countP p = 0 := by
  induction l with
  | nil => rfl
  | cons a l ih =>
      rw [List.countP_cons, h a (List.mem_cons_self a l)]
      simp [ih (fun ev hev => h ev (List.mem_cons_of_mem a hev))]

theorem countP_length_of_shape {l : List Ev} {p : Ev → Bool}
    (h : ∀ ev ∈ l, p ev = true) : l.countP p = l.length := by
  induction l with
  | nil => rfl
  | cons a l ih =>
      rw [List.countP_cons, h a (List.mem_cons_self a l)]
      simp [ih (fun ev hev => h ev (List.mem_cons_of_mem a hev))]

theorem startTasks_events_not_terminal (mods : List Candidate)
    (wcfg : List (String × Cfg)) :
    ∀ ev ∈ (startTasks mods wcfg).events, isTerminalEv ev = false := by
  intro ev hev
  rcases startTasks_events_shape mods wcfg ev hev with ⟨n, he⟩ | ⟨n, he⟩ <;>
    simp [he, isTerminalEv]

theorem startTasks_events_no_close (mods : List Candidate)
    (wcfg : List (String × Cfg)) :
    Ev.closeCalled ∉ (startTasks mods wcfg).events := by
  intro hmem
  rcases startTasks_events_shape mods wcfg _ hmem with ⟨n, he⟩ | ⟨n, he⟩ <;>
    simp at he

theorem startTasks_events_no_send (mods : List Candidate)
    (wcfg : List (String × Cfg)) (t : String) :
    Ev.sendCalled t ∉ (startTasks mods wcfg).events := by
  intro hmem
  rcases startTasks_events_shape mods wcfg _ hmem with ⟨n, he⟩ | ⟨n, he⟩ <;>
    simp at he

theorem sendEvents_no_close (df : Bool) (t : String) :
    Ev.closeCalled ∉ notifierSendEvents df t := by
  cases df <;> simp [notifierSendEvents]

theorem sendEvents_not_terminal (df : Bool) (t : String) :
    ∀ ev ∈ notifierSendEvents df t, isTerminalEv ev = false := by
  intro ev hev
  cases df <;> simp [notifierSendEvents] at hev
  · simp [hev, isTerminalEv]
  · rcases hev with he | he <;> simp [he, isTerminalEv]

theorem supTail_no_close (w : WaitResult) : Ev.closeCalled ∉ (supTail w).fst := by
  cases w <;> simp [supTail]

theorem supTail_not_terminal (w : WaitResult) :
    ∀ ev ∈ (supTail w).fst, isTerminalEv ev = false := by
  intro ev hev
  cases w <;> simp [supTail] at hev <;>
    first
      | (rcases hev with he | he <;> simp [he, isTerminalEv])
      | simp [hev, isTerminalEv]

theorem closeCalled_mem_shutdown (ts : List WatcherTask) :
    Ev.closeCalled ∈ shutdownEvents ts := by
  simp [shutdownEvents]

theorem start_count_filter (cs : List Candidate) (wcfg : List (String × Cfg)) :
    (startTasks (cs.filter (fun c => c.loads)) wcfg).tasks.length
        + cs.countP (fun c => !c.loads)
        + cs.countP (fun c => c.loads && c.init == InitOutcome.raises)
        + cs.countP (fun c => c.loads && c.init == InitOutcome.noCoro)
      = cs.length := by
  induction cs with
  | nil => rfl
  | cons c rest ih =>
      cases hl : c.loads
      · simp only [List.filter_cons, hl, List.countP_cons]
        simp only [hl, Bool.false_and, Bool.not_false]
        simp at ih ⊢
        omega
      · cases hi : c.init <;>
          · simp only [List.filter_cons, hl, List.countP_cons, if_pos]
            simp only [startTasks, hi, hl]
            simp at ih ⊢
            omega

/-! ### Claim theorems -/

/-- C7: `discover_watchers` includes a candidate watcher file in the
returned sequence if and only if its name does not begin with an
underscore, it loads successfully, and it exposes the required `init`
entry point; a candidate that fails to load is skipped with an error log,
a candidate without `init` is skipped with a warning log, and both the
module list and the log trace of discovery distribute over concatenation
of the scan, so one unit's failure never aborts discovery of the others. -/
theorem c7_discovery_iff (cs ms ns : List Candidate) (c : Candidate) :
    (c ∈ discover_watchers true cs ↔
      c ∈ cs ∧ startsWithUnderscore c.name = false ∧ c.loads = true
        ∧ c.hasInit = true)
    ∧ (c ∈ cs → startsWithUnderscore c.name = false → c.loads = false →
        Ev.loadFailedLogged c.name ∈ (discover_watchersRun true cs).events)
    ∧ (c ∈ cs → startsWithUnderscore c.name = false → c.loads = true →
        c.hasInit = false →
        Ev.noInitLogged c.name ∈ (discover_watchersRun true cs).events)
    ∧ discover_watchers true (ms ++ ns) =
        discover_watchers true ms ++ discover_watchers true ns
    ∧ (discover_watchersRun true (ms ++ ns)).events =
        (discover_watchersRun true ms).events
          ++ (discover_watchersRun true ns).events := by
  refine ⟨?_, ?_, ?_, ?_, ?_⟩
  · rw [discover_watchers_eq_filter]
    simp [List.mem_filter, and_assoc]
  · intro hc hu hl
    simpa [discover_watchersRun] using discoverScan_loadFailed_mem cs c hc hu hl
  · intro hc hu hl hi
    simpa [discover_watchersRun] using discoverScan_noInit_mem cs c hc hu hl hi
  · rw [discover_watchers_eq_filter, discover_watchers_eq_filter,
        discover_watchers_eq_filter]
    simp [List.filter_append]
  · simp [discover_watchersRun, discoverScan_append]

/-- C7 (witness): the claim at the three-unit scan with a load failure, a
raising unit and a running unit, instantiated at the broken unit. -/
theorem c7_witness :
    (unitBroken ∈ discover_watchers true csC6w ↔
      unitBroken ∈ csC6w ∧ startsWithUnderscore unitBroken.name = false
        ∧ unitBroken.loads = true ∧ unitBroken.hasInit = true)
    ∧ (unitBroken ∈ csC6w → startsWithUnderscore unitBroken.name = false →
        unitBroken.loads = false →
        Ev.loadFailedLogged unitBroken.name ∈ (discover_watchersRun true csC6w).events)
    ∧ (unitBroken ∈ csC6w → startsWithUnderscore unitBroken.name = false →
        unitBroken.loads = true → unitBroken.hasInit = false →
        Ev.noInitLogged unitBroken.name ∈ (discover_watchersRun true csC6w).events)
    ∧ discover_watchers true ([unitBroken] ++ [unitForever]) =
        discover_watchers true [unitBroken] ++ discover_watchers true [unitForever]
    ∧ (discover_watchersRun true ([unitBroken] ++ [unitForever])).events =
        (discover_watchersRun true [unitBroken]).events
          ++ (discover_watchersRun true [unitForever]).events :=
  c7_discovery_iff csC6w [unitBroken] [unitForever] unitBroken

/-- C8: the configuration mapping passed to each unit's entry point during
the start loop is exactly `bindConfig` of its name, and `bindConfig` is
the watchers-section lookup defaulting to the empty mapping when the
section is absent — a total function, so a missing section never raises. -/
theorem c8_config_binding (mods : List Candidate) (wcfg : List (String × Cfg))
    (n : String) :
    (startTasks mods wcfg).invocations =
      mods.map (fun m => (m.name, bindConfig wcfg m.name))
    ∧ bindConfig wcfg n = (wcfg.lookup n).getD [] := by
  refine ⟨startTasks_invocations mods wcfg, ?_⟩
  unfold bindConfig
  cases wcfg.lookup n <;> rfl

/-- C2 (counterexample): in the run whose discovery yields no watcher
units, the process exits with status 0, not a non-zero status as the claim
states. -/
theorem c2_counterexample :
    (mainRun envEmptyRun).exit = some 0
    ∧ (∀ n, (mainRun envEmptyRun).exit = some n → n = 0) := by
  refine ⟨rfl, ?_⟩
  intro n h
  have h0 : (mainRun envEmptyRun).exit = some 0 := rfl
  rw [h0] at h
  exact (Option.some.inj h).symm

/-- C2 (amended): for every run in which discovery yields no watcher units
or no watcher task starts successfully, the condition is logged and main
returns with no tasks ever started, and the process exits with status 0
(a normal exit), not a non-zero status. -/
theorem c2_amended (e : Env) (cfg : ConfigDoc)
    (h1 : e.configExists = true) (h2 : e.configLoads = true)
    (h3 : e.configDoc = some cfg)
    (hno : discovered e = [] ∨ (startPhase e cfg).tasks = []) :
    (mainRun e).exit = some 0
    ∧ (Ev.noWatchersLogged ∈ (mainRun e).events
        ∨ Ev.noTasksLogged ∈ (mainRun e).events)
    ∧ (∀ n, Ev.startedLogged n ∉ (mainRun e).events)
    ∧ (mainRun e).finalStates = [] := by
  by_cases hm : discovered e = []
  · rw [mainRun_noWatchers e cfg h1 h2 h3 hm]
    refine ⟨rfl, Or.inl (by simp), ?_, rfl⟩
    intro n hn
    simp at hn
  · have ht : (startPhase e cfg).tasks = [] := by
      rcases hno with hno | hno
      · exact absurd hno hm
      · exact hno
    rw [mainRun_noTasks e cfg h1 h2 h3 hm ht]
    refine ⟨rfl, Or.inr (by simp), ?_, rfl⟩
    intro n hn
    rcases List.mem_append.mp hn with hmem | hmem
    · exact startTasks_no_started_of_tasks_nil _ _ ht n hmem
    · simp at hmem

/-- C2 (witness): the amended claim at the run with one unit whose `init`
returns nothing to run. -/
theorem c2_witness :
    (mainRun envNoCoroRun).exit = some 0
    ∧ (Ev.noWatchersLogged ∈ (mainRun envNoCoroRun).events
        ∨ Ev.noTasksLogged ∈ (mainRun envNoCoroRun).events)
    ∧ (∀ n, Ev.startedLogged n ∉ (mainRun envNoCoroRun).events)
    ∧ (mainRun envNoCoroRun).finalStates = [] :=
  c2_amended envNoCoroRun emptyDoc rfl rfl rfl (Or.inr (by decide))

/-- C9: for every run with an empty watcher set (zero units discovered or
zero tasks started), the condition is logged, no startup notification is
sent, `notifier.close()` is never invoked, and main returns normally. -/
theorem c9_empty_set (e : Env) (cfg : ConfigDoc)
    (h1 : e.configExists = true) (h2 : e.configLoads = true)
    (h3 : e.configDoc = some cfg)
    (hno : discovered e = [] ∨ (startPhase e cfg).tasks = []) :
    (Ev.noWatchersLogged ∈ (mainRun e).events
      ∨ Ev.noTasksLogged ∈ (mainRun e).events)
    ∧ (∀ t, Ev.sendCalled t ∉ (mainRun e).events)
    ∧ Ev.closeCalled ∉ (mainRun e).events
    ∧ (mainRun e).exit = some 0 := by
  by_cases hm : discovered e = []
  · rw [mainRun_noWatchers e cfg h1 h2 h3 hm]
    refine ⟨Or.inl (by simp), ?_, ?_, rfl⟩
    · intro t ht
      simp at ht
    · intro hc
      simp at hc
  · have ht : (startPhase e cfg).tasks = [] := by
      rcases hno with hno | hno
      · exact absurd hno hm
      · exact hno
    rw [mainRun_noTasks e cfg h1 h2 h3 hm ht]
    refine ⟨Or.inr (by simp), ?_, ?_, rfl⟩
    · intro t hmem
      rcases List.mem_append.mp hmem with hmem | hmem
      · exact startTasks_events_no_send _ _ t hmem
      · simp at hmem
    · intro hmem
      rcases List.mem_append.mp hmem with hmem | hmem
      · exact startTasks_events_no_close _ _ hmem
      · simp at hmem

/-- C9 (witness): the claim at the run whose discovery yields no units. -/
theorem c9_witness :
    (Ev.noWatchersLogged ∈ (mainRun envEmptyRun).events
      ∨ Ev.noTasksLogged ∈ (mainRun envEmptyRun).events)
    ∧ (∀ t, Ev.sendCalled t ∉ (mainRun envEmptyRun).events)
    ∧ Ev.closeCalled ∉ (mainRun envEmptyRun).events
    ∧ (mainRun envEmptyRun).exit = some 0 :=
  c9_empty_set envEmptyRun emptyDoc rfl rfl rfl (Or.inl (by decide))

/-- C6 (counterexample): one discovered unit that loads (k = 0) and whose
`init` does not raise (m = 0), but returns a falsy value: no task reaches
Running, so the number of running tasks is 0, not N − k − m = 1. -/
theorem c6_counterexample :
    ¬ ((startTasks (discover_watchers true csC6) []).tasks.length
        = csC6.length - csC6.countP (fun c => !c.loads)
            - (discover_watchers true csC6).countP
                (fun c => c.init == InitOutcome.raises)) := by
  decide

/-- C6 (amended): for N candidates (none private, all exposing `init`)
among which k fail to load, m raise on invocation, and additionally z
return no runnable operation (silently skipped per the entry-point
contract), exactly N − k − m − z tasks reach Running; a unit whose
entry-point invocation raises is logged and excluded from the monitored
set (only units returning a runnable operation contribute a task); and
both discovery and the start loop distribute over concatenation, so load
failures and start failures never prevent the remaining units from
starting. -/
theorem c6_amended (cs ms ns : List Candidate) (wcfg : List (String × Cfg))
    (hshape : ∀ c ∈ cs, startsWithUnderscore c.name = false ∧ c.hasInit = true) :
    (startTasks (discover_watchers true cs) wcfg).tasks.length
        + cs.countP (fun c => !c.loads)
        + cs.countP (fun c => c.loads && c.init == InitOutcome.raises)
        + cs.countP (fun c => c.loads && c.init == InitOutcome.noCoro)
      = cs.length
    ∧ (∀ m ∈ discover_watchers true cs, m.init = InitOutcome.raises →
        Ev.startFailedLogged m.name
          ∈ (startTasks (discover_watchers true cs) wcfg).events)
    ∧ (startTasks (discover_watchers true cs) wcfg).tasks
        = (discover_watchers true cs).filterMap (fun m =>
            match m.init with
            | InitOutcome.coro r => some ⟨m.name, ("watcher_") ++ m.name, r⟩
            | _ => none)
    ∧ (startTasks (ms ++ ns) wcfg).tasks
        = (startTasks ms wcfg).tasks ++ (startTasks ns wcfg).tasks
    ∧ discover_watchers true (ms ++ ns)
        = discover_watchers true ms ++ discover_watchers true ns := by
  refine ⟨?_, ?_, ?_, ?_, ?_⟩
  · have hfil : discover_watchers true cs = cs.filter (fun c => c.loads) := by
      rw [discover_watchers_eq_filter, if_pos rfl]
      apply List.filter_congr
      intro c hc
      rcases hshape c hc with ⟨hu, hi⟩
      simp [hu, hi]
    rw [hfil]
    exact start_count_filter cs wcfg
  · intro m hm hr
    exact startTasks_raises_logged _ wcfg m hm hr
  · exact startTasks_tasks_filterMap _ wcfg
  · rw [startTasks_append]
  · rw [discover_watchers_eq_filter, discover_watchers_eq_filter,
        discover_watchers_eq_filter]
    simp [List.filter_append]

/-- C6 (witness): the amended claim at a three-unit scan: one unit fails
to load, one raises on invocation, one runs. -/
theorem c6_witness :
    (startTasks (discover_watchers true csC6w) []).tasks.length
        + csC6w.countP (fun c => !c.loads)
        + csC6w.countP (fun c => c.loads && c.init == InitOutcome.raises)
        + csC6w.countP (fun c => c.loads && c.init == InitOutcome.noCoro)
      = csC6w.length
    ∧ (∀ m ∈ discover_watchers true csC6w, m.init = InitOutcome.raises →
        Ev.startFailedLogged m.name
          ∈ (startTasks (discover_watchers true csC6w) []).events)
    ∧ (startTasks (discover_watchers true csC6w) []).tasks
        = (discover_watchers true csC6w).filterMap (fun m =>
            match m.init with
            | InitOutcome.coro r => some ⟨m.name, ("watcher_") ++ m.name, r⟩
            | _ => none)
    ∧ (startTasks ([unitFails] ++ [unitForever]) []).tasks
        = (startTasks [unitFails] []).tasks ++ (startTasks [unitForever] []).tasks
    ∧ discover_watchers true ([unitFails] ++ [unitForever])
        = discover_watchers true [unitFails] ++ discover_watchers true [unitForever] :=
  c6_amended csC6w [unitFails] [unitForever] [] (by decide)

/-- C10 (counterexample): a configuration file that loads as a null YAML
document (e.g. an empty config.yaml) has neither top-level section, yet the
run does not proceed normally: the section lookup raises, the top-level
handler logs a fatal error, no unit is ever invoked, and the process exits
with status 1. -/
theorem c10_counterexample :
    (mainRun envNullDoc).exit = some 1
    ∧ (mainRun envNullDoc).events = [Ev.fatalLogged]
    ∧ (mainRun envNullDoc).invocations = [] := by
  decide

/-- C10 (amended): when the loaded configuration document is a mapping, a
missing `notifier` or `watchers` section behaves exactly as an explicit
empty mapping would — the run is unchanged in every observable — so a
mapping document containing only one (or neither) section is accepted; only
a null (empty-file) document is not. -/
theorem c10_amended (e : Env) (m : ConfigDoc) (hm : e.configDoc = some m) :
    mainRun e = mainRun {e with configDoc := some (fillDoc m)} := by
  unfold mainRun
  simp [hm, fillDoc]

/-- C10 (witness): the amended claim at a run with a document lacking the
`notifier` section. -/
theorem c10_witness :
    mainRun envDocRun =
      mainRun {envDocRun with configDoc := some (fillDoc docWithSections)} :=
  c10_amended envDocRun docWithSections rfl

theorem supervise_events_decomp (ts : List WatcherTask) (df itr : Bool) :
    ∃ rest, (supervise ts df itr).events =
      Ev.sendCalled (startupMarkdown ts)
        :: ((if df then [Ev.sendFailureLogged] else [])
             ++ Ev.waitBegun :: rest) := by
  cases hw : waitOutcome ts itr
  case blocksForever =>
      refine ⟨terminalsDuringWait ts, ?_⟩
      rw [supervise_blocking ts df itr hw]
      simp [notifierSendEvents]
  all_goals
      refine ⟨terminalsDuringWait ts ++ [Ev.waitEnded] ++ shutdownEvents ts
               ++ (supTail (waitOutcome ts itr)).fst, ?_⟩
      rw [supervise_terminating ts df itr _ rfl (by rw [hw]; simp)]
      simp [notifierSendEvents, hw]

/-- C4 (counterexample): for the unit whose file name is `watcher_x.py`,
the startup notification's bullet is the task name with every occurrence of
`watcher_` removed, which is `x`, not the unit's name `watcher_x`: the text
sent does not contain the unit's name as its bullet. -/
theorem c4_counterexample :
    Ev.sendCalled (startupHeader ++ ("- `watcher_x`")) ∉ (mainRun envTaggedRun).events
    ∧ Ev.sendCalled (startupHeader ++ ("- `x`")) ∈ (mainRun envTaggedRun).events := by
  decide

/-- C4 (amended): the startup notification contains one bullet per task
that reached Running, each bullet holding the task's name with every
occurrence of `watcher_` removed (equal to the unit name only when the
unit name contains no `watcher_` substring), and it is sent after all
starts are attempted, strictly before the Supervisor begins waiting. -/
theorem c4_amended (e : Env) (cfg : ConfigDoc)
    (h1 : e.configExists = true) (h2 : e.configLoads = true)
    (h3 : e.configDoc = some cfg)
    (ht : (startPhase e cfg).tasks ≠ []) :
    (∃ rest, (mainRun e).events =
      (startPhase e cfg).events
        ++ Ev.sendCalled (startupMarkdown (startPhase e cfg).tasks)
            :: ((if e.sendDeliveryFails then [Ev.sendFailureLogged] else [])
                 ++ Ev.waitBegun :: rest))
    ∧ startupMarkdown (startPhase e cfg).tasks =
        startupHeader ++ String.intercalate ("\n")
          ((startPhase e cfg).tasks.map
            (fun t => ("- `") ++ pyReplace t.taskName ("watcher_") ("") ++ ("`"))) := by
  constructor
  · rw [mainRun_sup e cfg h1 h2 h3 ht]
    obtain ⟨rest, hrest⟩ :=
      supervise_events_decomp (startPhase e cfg).tasks e.sendDeliveryFails e.interrupt
    exact ⟨rest, by rw [show supPhase e cfg =
      supervise (startPhase e cfg).tasks e.sendDeliveryFails e.interrupt from rfl, hrest]⟩
  · simp only [startupMarkdown, activeWatchers, stripWatcherTag, List.map_map]
    rfl

/-- C4 (witness): the amended claim at the interrupt-ended run with the
single long-running unit `beta`. -/
theorem c4_witness :
    (∃ rest, (mainRun envForeverRun).events =
      (startPhase envForeverRun emptyDoc).events
        ++ Ev.sendCalled (startupMarkdown (startPhase envForeverRun emptyDoc).tasks)
            :: ((if envForeverRun.sendDeliveryFails then [Ev.sendFailureLogged] else [])
                 ++ Ev.waitBegun :: rest))
    ∧ startupMarkdown (startPhase envForeverRun emptyDoc).tasks =
        startupHeader ++ String.intercalate ("\n")
          ((startPhase envForeverRun emptyDoc).tasks.map
            (fun t => ("- `") ++ pyReplace t.taskName ("watcher_") ("") ++ ("`"))) :=
  c4_amended envForeverRun emptyDoc rfl rfl rfl (by decide)

theorem supervise_df_independent (ts : List WatcherTask) (itr df dg : Bool) :
    (supervise ts df itr).exit = (supervise ts dg itr).exit
    ∧ (supervise ts df itr).finalStates = (supervise ts dg itr).finalStates := by
  cases hw : waitOutcome ts itr
  case blocksForever =>
      rw [supervise_blocking ts df itr hw, supervise_blocking ts dg itr hw]
      exact ⟨rfl, rfl⟩
  all_goals
      rw [supervise_terminating ts df itr _ hw (by simp),
          supervise_terminating ts dg itr _ hw (by simp)]
      exact ⟨rfl, rfl⟩

theorem waitBegun_mem_supervise (ts : List WatcherTask) (df itr : Bool) :
    Ev.waitBegun ∈ (supervise ts df itr).events := by
  obtain ⟨rest, hrest⟩ := supervise_events_decomp ts df itr
  rw [hrest]
  simp

theorem closeCalled_mem_supervise_of_isSome (ts : List WatcherTask) (df itr : Bool)
    (h : (supervise ts df itr).exit.isSome = true) :
    Ev.closeCalled ∈ (supervise ts df itr).events := by
  have hb := supervise_exit_of_isSome ts df itr h
  rw [supervise_terminating ts df itr _ rfl hb]
  simp only [List.mem_append]
  exact Or.inl (Or.inr (closeCalled_mem_shutdown ts))

/-- C3: if delivery of the startup notification fails, the failure is
logged and is non-fatal to the run: the run still enters the wait on the
tasks, its exit status and final task states are identical to the run in
which delivery succeeds, and whenever the run terminates the shutdown
sequence still closes the notifier. -/
theorem c3_send_failure_nonfatal (e : Env) (cfg : ConfigDoc)
    (h1 : e.configExists = true) (h2 : e.configLoads = true)
    (h3 : e.configDoc = some cfg)
    (ht : (startPhase e cfg).tasks ≠ [])
    (hdf : e.sendDeliveryFails = true) :
    Ev.sendFailureLogged ∈ (mainRun e).events
    ∧ Ev.waitBegun ∈ (mainRun e).events
    ∧ (mainRun e).exit = (mainRun {e with sendDeliveryFails := false}).exit
    ∧ (mainRun e).finalStates =
        (mainRun {e with sendDeliveryFails := false}).finalStates
    ∧ ((mainRun e).exit.isSome = true → Ev.closeCalled ∈ (mainRun e).events) := by
  have h1b : ({e with sendDeliveryFails := false} : Env).configExists = true := h1
  have h2b : ({e with sendDeliveryFails := false} : Env).configLoads = true := h2
  have h3b : ({e with sendDeliveryFails := false} : Env).configDoc = some cfg := h3
  have htb : (startPhase {e with sendDeliveryFails := false} cfg).tasks ≠ [] := ht
  rw [mainRun_sup e cfg h1 h2 h3 ht,
      mainRun_sup {e with sendDeliveryFails := false} cfg h1b h2b h3b htb]
  have hsame : startPhase {e with sendDeliveryFails := false} cfg = startPhase e cfg := rfl
  refine ⟨?_, ?_, ?_, ?_, ?_⟩
  · obtain ⟨rest, hrest⟩ :=
      supervise_events_decomp (startPhase e cfg).tasks e.sendDeliveryFails e.interrupt
    simp only [List.mem_append]
    right
    rw [show supPhase e cfg =
          supervise (startPhase e cfg).tasks e.sendDeliveryFails e.interrupt from rfl,
        hrest, hdf]
    simp
  · simp only [List.mem_append]
    exact Or.inr (waitBegun_mem_supervise (startPhase e cfg).tasks e.sendDeliveryFails e.interrupt)
  · exact (supervise_df_independent (startPhase e cfg).tasks e.interrupt
      e.sendDeliveryFails false).1
  · exact (supervise_df_independent (startPhase e cfg).tasks e.interrupt
      e.sendDeliveryFails false).2
  · intro hs
    simp only [List.mem_append]
    exact Or.inr (closeCalled_mem_supervise_of_isSome
      (startPhase e cfg).tasks e.sendDeliveryFails e.interrupt hs)

/-- C3 (witness): the claim at the interrupt-ended run with one
long-running unit and failing startup delivery. -/
theorem c3_witness :
    Ev.sendFailureLogged ∈ (mainRun envSendFailRun).events
    ∧ Ev.waitBegun ∈ (mainRun envSendFailRun).events
    ∧ (mainRun envSendFailRun).exit =
        (mainRun {envSendFailRun with sendDeliveryFails := false}).exit
    ∧ (mainRun envSendFailRun).finalStates =
        (mainRun {envSendFailRun with sendDeliveryFails := false}).finalStates
    ∧ ((mainRun envSendFailRun).exit.isSome = true →
        Ev.closeCalled ∈ (mainRun envSendFailRun).events) :=
  c3_send_failure_nonfatal envSendFailRun emptyDoc rfl rfl rfl (by decide) rfl

/-- C1 (counterexample): in the run with a failing task `alpha` and a
still-running sibling `beta`, some monitored task reaches its terminal
state only after the wait has ended: the Supervisor did not keep blocking
until all monitored tasks were terminal, and the run exits with status 1. -/
theorem c1_counterexample :
    Ev.waitEnded ∈ (mainRun envC1run).events
    ∧ ((mainRun envC1run).events.takeWhile
          (fun ev => !(ev == Ev.waitEnded))).countP isTerminalEv
        ≠ (mainRun envC1run).events.countP isTerminalEv
    ∧ (mainRun envC1run).exit = some 1 := by
  decide

/-- C1 (amended): when one monitored task raises an unhandled error while
another is still running, the failing task transitions to Failed and the
error is logged, but the Supervisor's wait IS interrupted: the bare
`asyncio.gather` raises the task's exception, the wait ends with the
sibling not yet terminal, the shutdown sequence then cancels the sibling
and closes the notifier, and the exception propagates to the top-level
handler, which logs it as fatal and exits with status 1. -/
theorem c1_amended (ts : List WatcherTask) (df : Bool) (t1 t2 : WatcherTask)
    (h1 : t1 ∈ ts) (h2 : t2 ∈ ts)
    (hr1 : t1.run = RunOutcome.fails) (hr2 : t2.run = RunOutcome.runsForever) :
    (∃ n, waitOutcome ts false = WaitResult.errorRaised n)
    ∧ (supervise ts df false).exit = some 1
    ∧ Ev.fatalLogged ∈ (supervise ts df false).events
    ∧ (t1.moduleName, TaskState.failed) ∈ (supervise ts df false).finalStates
    ∧ (∃ pre post, (supervise ts df false).events = pre ++ Ev.waitEnded :: post
        ∧ Ev.taskTerminal t2.moduleName TaskState.cancelled ∈ post
        ∧ Ev.closeCalled ∈ post) := by
  have hfind : (ts.find? (fun t => t.run == RunOutcome.fails)) ≠ none := by
    intro hn
    have := List.find?_eq_none.mp hn t1 h1
    simp [hr1] at this
  obtain ⟨tf, hf⟩ := Option.ne_none_iff_exists'.mp hfind
  have hw : waitOutcome ts false = WaitResult.errorRaised tf.moduleName := by
    unfold waitOutcome
    simp [hf]
  have hsup := supervise_terminating ts df false _ hw (by simp)
  refine ⟨⟨tf.moduleName, hw⟩, ?_, ?_, ?_, ?_⟩
  · rw [hsup]
    rfl
  · rw [hsup]
    simp [supTail]
  · rw [hsup]
    simp only [List.mem_map]
    exact ⟨t1, h1, by rw [hr1]; rfl⟩
  · refine ⟨notifierSendEvents df (startupMarkdown ts) ++ [Ev.waitBegun]
        ++ terminalsDuringWait ts,
      shutdownEvents ts ++ (supTail (WaitResult.errorRaised tf.moduleName)).fst,
      ?_, ?_, ?_⟩
    · rw [hsup]
      simp
    · have hmem : Ev.taskTerminal t2.moduleName TaskState.cancelled ∈
          ts.filterMap (fun t =>
            if t.run == RunOutcome.runsForever then
              some (Ev.taskTerminal t.moduleName TaskState.cancelled)
            else none) :=
        List.mem_filterMap.mpr ⟨t2, h2, by simp [hr2]⟩
      refine List.mem_append.mpr (Or.inl ?_)
      unfold shutdownEvents
      refine List.mem_append.mpr (Or.inl ?_)
      exact List.mem_append.mpr (Or.inr hmem)
    · simp only [List.mem_append]
      exact Or.inl (closeCalled_mem_shutdown ts)

/-- C1 (witness): the amended claim at the concrete two-task set with
`alpha` failing and `beta` running until cancelled. -/
theorem c1_witness :
    (∃ n, waitOutcome tsC1 false = WaitResult.errorRaised n)
    ∧ (supervise tsC1 false false).exit = some 1
    ∧ Ev.fatalLogged ∈ (supervise tsC1 false false).events
    ∧ (("alpha" : String), TaskState.failed) ∈ (supervise tsC1 false false).finalStates
    ∧ (∃ pre post, (supervise tsC1 false false).events = pre ++ Ev.waitEnded :: post
        ∧ Ev.taskTerminal ("beta") TaskState.cancelled ∈ post
        ∧ Ev.closeCalled ∈ post) :=
  c1_amended tsC1 false ⟨"alpha", "watcher_alpha", RunOutcome.fails⟩
    ⟨"beta", "watcher_beta", RunOutcome.runsForever⟩
    (by decide) (by decide) rfl rfl

theorem cancels_not_terminal (ts : List WatcherTask) :
    ∀ ev ∈ ts.filterMap (fun t =>
        if t.run == RunOutcome.runsForever then some (Ev.cancelIssued t.taskName) else none),
      isTerminalEv ev = false := by
  intro ev hev
  rcases cancelIssuedEvs_shape ts ev hev with ⟨n, he⟩
  simp [he, isTerminalEv]

theorem cancels_no_close (ts : List WatcherTask) :
    Ev.closeCalled ∉ ts.filterMap (fun t =>
        if t.run == RunOutcome.runsForever then some (Ev.cancelIssued t.taskName) else none) := by
  intro hmem
  rcases cancelIssuedEvs_shape ts _ hmem with ⟨n, he⟩
  simp at he

theorem cancelTerms_terminal (ts : List WatcherTask) :
    ∀ ev ∈ ts.filterMap (fun t =>
        if t.run == RunOutcome.runsForever then
          some (Ev.taskTerminal t.moduleName TaskState.cancelled)
        else none),
      isTerminalEv ev = true := by
  intro ev hev
  rcases cancelTerminalEvs_shape ts ev hev with ⟨n, he⟩
  simp [he, isTerminalEv]

theorem cancelTerms_no_close (ts : List WatcherTask) :
    Ev.closeCalled ∉ ts.filterMap (fun t =>
        if t.run == RunOutcome.runsForever then
          some (Ev.taskTerminal t.moduleName TaskState.cancelled)
        else none) := by
  intro hmem
  rcases cancelTerminalEvs_shape ts _ hmem with ⟨n, he⟩
  simp at he

theorem termDW_no_close (ts : List WatcherTask) :
    Ev.closeCalled ∉ terminalsDuringWait ts := by
  intro hmem
  have := terminalsDuringWait_shape ts _ hmem
  simp [isTerminalEv] at this

/-- C5: in every terminating run that starts at least one watcher task,
`notifier.close()` is invoked exactly once (it appears once and only once
in the trace), and only after every monitored task has reached a terminal
state: all `tasks.length` terminal-state events precede the close and none
follows it — regardless of whether the run ended by normal completion,
interrupt, or a task error. -/
theorem c5_close_once (e : Env) (cfg : ConfigDoc)
    (h1 : e.configExists = true) (h2 : e.configLoads = true)
    (h3 : e.configDoc = some cfg)
    (ht : (startPhase e cfg).tasks ≠ [])
    (hs : (mainRun e).exit.isSome = true) :
    ∃ pre post,
      (mainRun e).events = pre ++ Ev.closeCalled :: post
      ∧ Ev.closeCalled ∉ pre
      ∧ Ev.closeCalled ∉ post
      ∧ pre.countP isTerminalEv = (startPhase e cfg).tasks.length
      ∧ post.countP isTerminalEv = 0 := by
  rw [mainRun_sup e cfg h1 h2 h3 ht] at hs ⊢
  have hb := supervise_exit_of_isSome (startPhase e cfg).tasks
    e.sendDeliveryFails e.interrupt hs
  have hsup := supervise_terminating (startPhase e cfg).tasks
    e.sendDeliveryFails e.interrupt _ rfl hb
  rw [show supPhase e cfg =
    supervise (startPhase e cfg).tasks e.sendDeliveryFails e.interrupt from rfl, hsup]
  refine ⟨(startPhase e cfg).events
      ++ (notifierSendEvents e.sendDeliveryFails (startupMarkdown (startPhase e cfg).tasks)
          ++ [Ev.waitBegun] ++ terminalsDuringWait (startPhase e cfg).tasks ++ [Ev.waitEnded]
          ++ ((startPhase e cfg).tasks.filterMap (fun t =>
              if t.run == RunOutcome.runsForever then some (Ev.cancelIssued t.taskName) else none)
            ++ [Ev.awaitedAll]
            ++ (startPhase e cfg).tasks.filterMap (fun t =>
                if t.run == RunOutcome.runsForever then
                  some (Ev.taskTerminal t.moduleName TaskState.cancelled)
                else none))),
    (supTail (waitOutcome (startPhase e cfg).tasks e.interrupt)).fst,
    ?_, ?_, ?_, ?_, ?_⟩
  · simp [shutdownEvents, List.append_assoc]
  · intro hmem
    simp only [List.mem_append] at hmem
    rcases hmem with hmem | ((((hmem | hmem) | hmem) | hmem) | ((hmem | hmem) | hmem))
    · exact startTasks_events_no_close _ _ hmem
    · exact sendEvents_no_close _ _ hmem
    · simp at hmem
    · exact termDW_no_close _ hmem
    · simp at hmem
    · exact cancels_no_close _ hmem
    · simp at hmem
    · exact cancelTerms_no_close _ hmem
  · exact supTail_no_close _
  · simp only [List.countP_append]
    rw [countP_zero_of_shape (show ∀ ev ∈ (startPhase e cfg).events,
          isTerminalEv ev = false from startTasks_events_not_terminal _ _),
        countP_zero_of_shape (sendEvents_not_terminal _ _),
        countP_zero_of_shape (cancels_not_terminal _),
        countP_length_of_shape (terminalsDuringWait_shape _),
        countP_length_of_shape (cancelTerms_terminal _),
        terminalsDuringWait_length, cancelTerminalEvs_length]
    have hpart := run_partition (startPhase e cfg).tasks
    simp [isTerminalEv]
    omega
  · exact countP_zero_of_shape (supTail_not_terminal _)

/-- C5 (witness): the claim at the interrupt-ended run with the single
long-running unit `beta`. -/
theorem c5_witness :
    ∃ pre post,
      (mainRun envForeverRun).events = pre ++ Ev.closeCalled :: post
      ∧ Ev.closeCalled ∉ pre
      ∧ Ev.closeCalled ∉ post
      ∧ pre.countP isTerminalEv = (startPhase envForeverRun emptyDoc).tasks.length
      ∧ post.countP isTerminalEv = 0 :=
  c5_close_once envForeverRun emptyDoc rfl rfl rfl (by decide) (by decide)

end AWA
